import Mathlib

/-!
Verification of the position/risk state machine and multi-factor signal
composer of `discord-options-bot` (`src/position_manager.py`,
`src/strategy_pro.py`), as a shallow embedding in Lean 4.

Conventions of the embedding:
* Python floats are modelled as rationals (`ℚ`); prices, percentages and
  timestamps are exact rational numbers.
* `datetime.now(timezone.utc)` is modelled by passing an explicit `now : ℚ`
  (minutes since an arbitrary epoch) to every operation that reads the clock;
  `timedelta` values become rational numbers of minutes.
* Mutation of `self` is modelled by state passing: every mutating method
  returns its Python return value together with the updated manager.
* Python `dict[str, int]` (insertion ordered, assignment overwrites) is
  modelled as an association list with an overwriting insert.
* Python's `float('inf')` result for `profit_factor` is modelled by
  `Option ℚ` with `none` standing for the infinite value.
* Python's `int(x)` truncation toward zero and banker's `round(x, n)` are
  modelled exactly (`pytrunc`, `pyround`).
-/

/-- Python `int(x)`: truncation of a real value toward zero. -/
def pytrunc (q : ℚ) : ℤ := if q < 0 then ⌈q⌉ else ⌊q⌋

/-- Python `round(x)` to an integer: round half to even (banker's rounding). -/
def roundHalfEven (q : ℚ) : ℤ :=
  let f := ⌊q⌋
  let r := q - (f : ℚ)
  if r < 1/2 then f
  else if (1:ℚ)/2 < r then f + 1
  else if f % 2 = 0 then f else f + 1

/-- Python `round(x, n)`: round to `n` decimal places, half to even. -/
def pyround (q : ℚ) (n : ℕ) : ℚ := (roundHalfEven (q * 10 ^ n) : ℚ) / 10 ^ n

/-! ## Data model of `position_manager.py` -/

/-- `PositionState` enum (`position_manager.py` lines 15-21). -/
inductive PositionState where
  | FLAT
  | ENTERING
  | HOLDING
  | EXITING
  | COOLDOWN
deriving DecidableEq

/-- `ExitReason` enum (`position_manager.py` lines 23-31). -/
inductive ExitReason where
  | TARGET_HIT
  | STOP_LOSS
  | SIGNAL_REVERSAL
  | CONFIDENCE_DROP
  | TIME_BASED
  | TREND_WEAKENED
  | MANUAL
deriving DecidableEq

/-- `Trade` dataclass (`position_manager.py` lines 33-48): record of a
completed trade.  `hold_duration` is in minutes. -/
structure Trade where
  entry_time : ℚ
  exit_time : ℚ
  direction : String
  entry_price : ℚ
  exit_price : ℚ
  target_price : ℚ
  stop_loss : ℚ
  pnl : ℚ
  pnl_pct : ℚ
  exit_reason : ExitReason
  hold_duration : ℚ
  max_favorable_excursion : ℚ
  max_adverse_excursion : ℚ
deriving DecidableEq

/-- `Position` dataclass (`position_manager.py` lines 66-79): the current
open position.  In the source `highest_price`/`lowest_price` default to
`0.0`/`inf` but every `Position` the manager creates sets both to the entry
price, so they are plain rationals here. -/
structure Position where
  direction : String
  entry_price : ℚ
  entry_time : ℚ
  target_price : ℚ
  stop_loss : ℚ
  entry_confidence : ℚ
  regime : String
  highest_price : ℚ
  lowest_price : ℚ
  hold_signals_count : ℤ
  last_update : ℚ
deriving DecidableEq

/-- `Position.update_price_extremes` (`position_manager.py` lines 81-85). -/
def Position.update_price_extremes (p : Position) (current_price now : ℚ) :
    Position :=
  { p with
    highest_price := max p.highest_price current_price
    lowest_price := min p.lowest_price current_price
    last_update := now }

/-- `Position.get_unrealized_pnl` (`position_manager.py` lines 87-92). -/
def Position.get_unrealized_pnl (p : Position) (current_price : ℚ) : ℚ :=
  if p.direction = "BUY" then current_price - p.entry_price
  else p.entry_price - current_price

/-- `Position.get_unrealized_pnl_pct` (`position_manager.py` lines 94-97). -/
def Position.get_unrealized_pnl_pct (p : Position) (current_price : ℚ) : ℚ :=
  p.get_unrealized_pnl current_price / p.entry_price * 100

/-- The `PositionManager` object: mutable fields and configuration
(`position_manager.py` lines 106-131).  `max_hold_time` and
`cooldown_period` are the `timedelta`s in minutes. -/
structure PositionManager where
  state : PositionState
  current_position : Option Position
  last_exit_time : Option ℚ
  trade_history : List Trade
  max_hold_time : ℚ
  cooldown_period : ℚ
  hold_signals_to_exit : ℤ
  trailing_stop_enabled : Bool
  trailing_stop_activation_pct : ℚ
  trailing_stop_distance_pct : ℚ
deriving DecidableEq

/-- `PositionManager.__init__` (`position_manager.py` lines 106-131): the
constructor stores the options unchecked.  The Python defaults are
`(240, 3, 3, True, 1.0, 0.5)`. -/
def PositionManager.mk_init (max_hold_time_minutes cooldown_minutes : ℤ)
    (hold_signals_to_exit : ℤ) (trailing_stop_enabled : Bool)
    (trailing_stop_activation_pct trailing_stop_distance_pct : ℚ) :
    PositionManager :=
  { state := PositionState.FLAT
    current_position := none
    last_exit_time := none
    trade_history := []
    max_hold_time := (max_hold_time_minutes : ℚ)
    cooldown_period := (cooldown_minutes : ℚ)
    hold_signals_to_exit := hold_signals_to_exit
    trailing_stop_enabled := trailing_stop_enabled
    trailing_stop_activation_pct := trailing_stop_activation_pct
    trailing_stop_distance_pct := trailing_stop_distance_pct }

/-- `PositionManager.can_enter_position` (`position_manager.py` lines
133-151).  Pure: reads the manager and the clock, mutates nothing. -/
def PositionManager.can_enter_position (m : PositionManager) (now : ℚ) :
    Bool × Option String :=
  if m.state ≠ PositionState.FLAT then
    (false, some "Already in state")
  else
    match m.last_exit_time with
    | some t =>
        if now - t < m.cooldown_period then (false, some "Cooldown active")
        else (true, none)
    | none => (true, none)

/-- `PositionManager.enter_position` (`position_manager.py` lines 153-191).
Returns the Python boolean result and the updated manager. -/
def PositionManager.enter_position (m : PositionManager) (now : ℚ)
    (direction : String) (entry_price target_price stop_loss confidence : ℚ)
    (regime : String) : Bool × PositionManager :=
  if (m.can_enter_position now).1 = false then (false, m)
  else
    let pos : Position :=
      { direction := direction
        entry_price := entry_price
        entry_time := now
        target_price := target_price
        stop_loss := stop_loss
        entry_confidence := confidence
        regime := regime
        highest_price := entry_price
        lowest_price := entry_price
        hold_signals_count := 0
        last_update := now }
    (true, { m with
              current_position := some pos
              state := PositionState.HOLDING })

/-- Triggers 1-5 of `PositionManager.check_exit_conditions`
(`position_manager.py` lines 214-250), evaluated in the source's order on
the already-extrema-updated position: stop loss, profit target, the two
trailing-stop branches, signal reversal, confidence collapse.  Each step
either returns its reason or falls through to the next; none of them
mutates anything. -/
def exit_trigger_1to5 (m : PositionManager) (pos : Position)
    (current_price : ℚ) (current_signal_direction : String)
    (current_confidence min_hold_confidence : ℚ) : Option ExitReason :=
  -- 1. HARD STOP: stop loss hit
  if pos.direction = "BUY" ∧ current_price ≤ pos.stop_loss then
    some ExitReason.STOP_LOSS
  else if pos.direction = "SELL" ∧ current_price ≥ pos.stop_loss then
    some ExitReason.STOP_LOSS
  -- 2. PROFIT TARGET: target hit
  else if pos.direction = "BUY" ∧ current_price ≥ pos.target_price then
    some ExitReason.TARGET_HIT
  else if pos.direction = "SELL" ∧ current_price ≤ pos.target_price then
    some ExitReason.TARGET_HIT
  -- 3. TRAILING STOP (if enabled and in profit)
  else if m.trailing_stop_enabled ∧
      pos.get_unrealized_pnl_pct current_price >
        m.trailing_stop_activation_pct ∧
      pos.direction = "BUY" ∧
      current_price ≤
        pos.highest_price * (1 - m.trailing_stop_distance_pct / 100) then
    some ExitReason.TARGET_HIT
  else if m.trailing_stop_enabled ∧
      pos.get_unrealized_pnl_pct current_price >
        m.trailing_stop_activation_pct ∧
      pos.direction ≠ "BUY" ∧
      current_price ≥
        pos.lowest_price * (1 + m.trailing_stop_distance_pct / 100) then
    some ExitReason.TARGET_HIT
  -- 4. HARD EXIT: full signal reversal
  else if (pos.direction = "BUY" ∧ current_signal_direction = "SELL") ∨
      (pos.direction = "SELL" ∧ current_signal_direction = "BUY") then
    some ExitReason.SIGNAL_REVERSAL
  -- 5. HARD EXIT: confidence collapsed
  else if current_confidence < min_hold_confidence then
    some ExitReason.CONFIDENCE_DROP
  else none

/-- `PositionManager.check_exit_conditions` (`position_manager.py` lines
193-269).  Returns the `(should_exit, exit_reason)` pair and the updated
manager.  The seven triggers appear in the source's order (triggers 1-5
are the factored-out `exit_trigger_1to5`); trigger 7 (time stop) is
evaluated after the trigger-6 streak mutation, exactly as the Python
control flow does. -/
def PositionManager.check_exit_conditions (m : PositionManager)
    (now current_price : ℚ) (current_signal_direction : String)
    (current_confidence min_hold_confidence : ℚ) :
    (Bool × Option ExitReason) × PositionManager :=
  match m.current_position with
  | none => ((false, none), m)
  | some pos0 =>
    let pos := pos0.update_price_extremes current_price now
    let m1 : PositionManager := { m with current_position := some pos }
    match exit_trigger_1to5 m pos current_price current_signal_direction
        current_confidence min_hold_confidence with
    | some r => ((true, some r), m1)
    | none =>
    -- 6. SOFT EXIT: multiple HOLD signals
    if current_signal_direction = "HOLD" then
      let pos2 := { pos with hold_signals_count := pos.hold_signals_count + 1 }
      let m2 : PositionManager := { m with current_position := some pos2 }
      if pos2.hold_signals_count ≥ m.hold_signals_to_exit then
        ((true, some ExitReason.TREND_WEAKENED), m2)
      -- 7. TIME-BASED EXIT: max hold time exceeded
      else if now - pos2.entry_time > m.max_hold_time then
        ((true, some ExitReason.TIME_BASED), m2)
      else ((false, none), m2)
    else
      let pos2 :=
        if current_signal_direction = pos.direction then
          { pos with hold_signals_count := 0 }
        else pos
      let m2 : PositionManager := { m with current_position := some pos2 }
      -- 7. TIME-BASED EXIT: max hold time exceeded
      if now - pos2.entry_time > m.max_hold_time then
        ((true, some ExitReason.TIME_BASED), m2)
      else ((false, none), m2)

/-- `PositionManager.exit_position` (`position_manager.py` lines 271-332).
Returns the `Optional[Trade]` result and the updated manager. -/
def PositionManager.exit_position (m : PositionManager) (now exit_price : ℚ)
    (exit_reason : ExitReason) : Option Trade × PositionManager :=
  match m.current_position with
  | none => (none, m)
  | some pos =>
    let pnl := if pos.direction = "BUY" then exit_price - pos.entry_price
               else pos.entry_price - exit_price
    let mfe := if pos.direction = "BUY" then pos.highest_price - pos.entry_price
               else pos.entry_price - pos.lowest_price
    let mae := if pos.direction = "BUY" then pos.lowest_price - pos.entry_price
               else pos.entry_price - pos.highest_price
    let pnl_pct := pnl / pos.entry_price * 100
    let trade : Trade :=
      { entry_time := pos.entry_time
        exit_time := now
        direction := pos.direction
        entry_price := pos.entry_price
        exit_price := exit_price
        target_price := pos.target_price
        stop_loss := pos.stop_loss
        pnl := pnl
        pnl_pct := pnl_pct
        exit_reason := exit_reason
        hold_duration := now - pos.entry_time
        max_favorable_excursion := mfe
        max_adverse_excursion := mae }
    (some trade, { m with
                    trade_history := m.trade_history ++ [trade]
                    current_position := none
                    last_exit_time := some now
                    state := PositionState.FLAT })

/-- The non-degenerate branch of the dictionary that
`PositionManager.get_performance_stats` returns (`position_manager.py`
lines 353-364).  `profit_factor = none` models Python's `float('inf')`. -/
structure PerfStats where
  total_trades : ℕ
  winning_trades : ℕ
  losing_trades : ℕ
  win_rate : ℚ
  avg_win : ℚ
  avg_loss : ℚ
  profit_factor : Option ℚ
  total_pnl : ℚ
  largest_win : ℚ
  largest_loss : ℚ
deriving DecidableEq

/-- Python `max` over a nonempty list (`0` as junk value on `[]`, where the
source would raise). -/
def listMax : List ℚ → ℚ
  | [] => 0
  | x :: xs => xs.foldl max x

/-- Python `min` over a nonempty list (`0` as junk value on `[]`). -/
def listMin : List ℚ → ℚ
  | [] => 0
  | x :: xs => xs.foldl min x

/-- `PositionManager.get_performance_stats` (`position_manager.py` lines
334-364) as a pure aggregation over the trade log.  `none` models the
zero-trade dictionary `{"total_trades": 0}` that the source returns for an
empty log. -/
def get_performance_stats (history : List Trade) : Option PerfStats :=
  if history = [] then none
  else
    let total := history.length
    let winning := history.filter (fun t => t.pnl > 0)
    let losing := history.filter (fun t => t.pnl < 0)
    let win_rate : ℚ := if total > 0 then (winning.length : ℚ) / total else 0
    let avg_win : ℚ :=
      if winning ≠ [] then (winning.map Trade.pnl).sum / winning.length else 0
    let avg_loss : ℚ :=
      if losing ≠ [] then (losing.map Trade.pnl).sum / losing.length else 0
    let losing_sum := (losing.map Trade.pnl).sum
    let profit_factor : Option ℚ :=
      if losing ≠ [] ∧ losing_sum ≠ 0 then
        some |(winning.map Trade.pnl).sum / losing_sum|
      else none
    some
      { total_trades := total
        winning_trades := winning.length
        losing_trades := losing.length
        win_rate := pyround win_rate 3
        avg_win := pyround avg_win 2
        avg_loss := pyround avg_loss 2
        profit_factor := profit_factor.map (fun x => pyround x 2)
        total_pnl := pyround (history.map Trade.pnl).sum 2
        largest_win := pyround (listMax (history.map Trade.pnl)) 2
        largest_loss := pyround (listMin (history.map Trade.pnl)) 2 }

/-! ## Data model of `strategy_pro.py` -/

/-- `MarketRegime` enum (`strategy_pro.py` lines 15-21). -/
inductive MarketRegime where
  | TRENDING_UP
  | TRENDING_DOWN
  | RANGING
  | HIGH_VOLATILITY
  | LOW_VOLATILITY
deriving DecidableEq

/-- `SignalStrength` enum (`strategy_pro.py` lines 23-30). -/
inductive SignalStrength where
  | VERY_STRONG
  | STRONG
  | MODERATE
  | WEAK
  | VERY_WEAK
  | NONE
deriving DecidableEq

/-- The numeric `.value` of each `SignalStrength` member. -/
def SignalStrength.value : SignalStrength → ℤ
  | .VERY_STRONG => 5
  | .STRONG => 4
  | .MODERATE => 3
  | .WEAK => 2
  | .VERY_WEAK => 1
  | .NONE => 0

/-- A Python `dict[str, int]` of factor scores, as an insertion-ordered
association list. -/
abbrev FactorDict := List (String × ℤ)

/-- Python `d[k] = v` on a `dict`: overwrite in place if the key exists,
append otherwise. -/
def FactorDict.assign (d : FactorDict) (k : String) (v : ℤ) : FactorDict :=
  if (d.lookup k).isSome then
    d.map (fun p => if p.1 = k then (k, v) else p)
  else d ++ [(k, v)]

/-- `TradingSignal` dataclass (`strategy_pro.py` lines 32-43).  The source
field `risk_reward_ratio` is named `risk_reward` here. -/
structure TradingSignal where
  direction : String
  strength : SignalStrength
  confidence : ℚ
  entry_price : ℚ
  target_price : ℚ
  stop_loss : ℚ
  regime : MarketRegime
  risk_reward : ℚ
  contributing_factors : FactorDict
deriving DecidableEq

/-- The three constructor arguments of `MultiFactorStrategy`
(`strategy_pro.py` lines 106-114).  The module-level instance uses
`(0.65, 3, 1.5)`. -/
structure StrategyConfig where
  min_confidence : ℚ
  min_signal_strength : ℤ
  risk_reward_min : ℚ
deriving DecidableEq

/-- `MultiFactorStrategy._combine_factors` (`strategy_pro.py` lines
243-265): 1m entries are copied, 15m entries are stored under
`<key>_weighted` with value `int(value * 1.5)` — Python `int()` truncates
toward zero. -/
def combine_factors (factors_1m factors_15m : FactorDict) : FactorDict :=
  let c1 := factors_1m.foldl (fun acc kv => FactorDict.assign acc kv.1 kv.2) []
  factors_15m.foldl
    (fun acc kv =>
      FactorDict.assign acc (kv.1 ++ "_weighted") (pytrunc ((kv.2 : ℚ) * (3/2))))
    c1

/-- The average factor score of `_calculate_direction` (`strategy_pro.py`
lines 277-282): `sum(values)/len` with a `0` fallback for an empty dict. -/
def avg_score (factors : FactorDict) : ℚ :=
  if factors.length > 0 then
    ((factors.map Prod.snd).sum : ℚ) / factors.length
  else 0

/-- The direction branch of `_calculate_direction` (`strategy_pro.py`
lines 284-290). -/
def direction_of (avg : ℚ) : String :=
  if avg > 3/10 then "BUY"
  else if avg < -(3/10) then "SELL"
  else "HOLD"

/-- The strength bands of `_calculate_direction` (`strategy_pro.py`
lines 292-304), applied to `abs(avg_score)`. -/
def strength_of (a : ℚ) : SignalStrength :=
  if a ≥ 8/10 then SignalStrength.VERY_STRONG
  else if a ≥ 6/10 then SignalStrength.STRONG
  else if a ≥ 4/10 then SignalStrength.MODERATE
  else if a ≥ 2/10 then SignalStrength.WEAK
  else SignalStrength.VERY_WEAK

/-- `MultiFactorStrategy._calculate_direction` (`strategy_pro.py` lines
267-306). -/
def calculate_direction (factors : FactorDict) : String × SignalStrength :=
  (direction_of (avg_score factors), strength_of |avg_score factors|)

/-- `MultiFactorStrategy._calculate_targets` (`strategy_pro.py` lines
308-345). -/
def calculate_targets (price : ℚ) (direction : String) (atr : ℚ)
    (regime : MarketRegime) : ℚ × ℚ :=
  let target_mult : ℚ :=
    if regime = MarketRegime.HIGH_VOLATILITY then 2
    else if regime = MarketRegime.LOW_VOLATILITY then 1
    else if regime = MarketRegime.TRENDING_UP ∨
        regime = MarketRegime.TRENDING_DOWN then 5/2
    else 3/2
  let stop_mult : ℚ :=
    if regime = MarketRegime.HIGH_VOLATILITY then 3/2
    else if regime = MarketRegime.LOW_VOLATILITY then 4/5
    else if regime = MarketRegime.TRENDING_UP ∨
        regime = MarketRegime.TRENDING_DOWN then 1
    else 1
  let target : ℚ :=
    if direction = "BUY" then price + atr * target_mult
    else if direction = "SELL" then price - atr * target_mult
    else price
  let stop : ℚ :=
    if direction = "BUY" then price - atr * stop_mult
    else if direction = "SELL" then price + atr * stop_mult
    else price
  (pyround target 2, pyround stop 2)

/-- `MultiFactorStrategy._validate_signal` (`strategy_pro.py` lines
370-397). -/
def validate_signal (cfg : StrategyConfig) (s : TradingSignal) : Bool :=
  if s.confidence < cfg.min_confidence then false
  else if s.strength.value < cfg.min_signal_strength then false
  else if s.risk_reward < cfg.risk_reward_min then false
  else if s.regime = MarketRegime.HIGH_VOLATILITY ∧ s.confidence < 3/4 then
    false
  else true

/-- `MultiFactorStrategy.analyze` (`strategy_pro.py` lines 134-185) up to
the final validation gate, from the point where the per-timeframe factor
dictionaries, last price, last ATR, ML confidence (0.5 when no model is
supplied) and detected regime are in hand: factor combination,
direction/strength, targets, risk/reward, signal assembly. -/
def compose_signal (cfg : StrategyConfig)
    (factors_1m factors_15m : FactorDict)
    (price atr ml_confidence : ℚ) (regime : MarketRegime) : TradingSignal :=
  let combined := combine_factors factors_1m factors_15m
  let ds := calculate_direction combined
  let direction := ds.1
  let strength := ds.2
  let ts := calculate_targets price direction atr regime
  let target := ts.1
  let stop := ts.2
  let risk : ℚ :=
    if direction = "BUY" then price - stop
    else if direction = "SELL" then stop - price
    else atr
  let reward : ℚ :=
    if direction = "BUY" then target - price
    else if direction = "SELL" then price - target
    else atr
  let rr : ℚ := if risk > 0 then reward / risk else 0
  { direction := direction
    strength := strength
    confidence := ml_confidence
    entry_price := price
    target_price := target
    stop_loss := stop
    regime := regime
    risk_reward := rr
    contributing_factors := combined }

/-- `MultiFactorStrategy.analyze` (`strategy_pro.py` lines 117-192): the
composed signal, demoted to `HOLD`/`NONE` when the final validation gate
fails (lines 187-192). -/
def analyze_core (cfg : StrategyConfig) (factors_1m factors_15m : FactorDict)
    (price atr ml_confidence : ℚ) (regime : MarketRegime) : TradingSignal :=
  let signal := compose_signal cfg factors_1m factors_15m price atr
    ml_confidence regime
  if validate_signal cfg signal = false then
    { signal with direction := "HOLD", strength := SignalStrength.NONE }
  else signal

/-! ## Reachable manager states

`Reachable m` holds exactly when `m` can be produced from a freshly
constructed `PositionManager` by a sequence of the mutating operations
`enter_position`, `check_exit_conditions`, `exit_position` (with arbitrary
arguments and clock readings).  `can_enter_position` and
`get_performance_stats` read the manager without mutating it, so they need
no step of their own. -/
inductive Reachable : PositionManager → Prop
  | mk_init (mh cd hs : ℤ) (en : Bool) (act dist : ℚ) :
      Reachable (PositionManager.mk_init mh cd hs en act dist)
  | enter (m : PositionManager) (now entry_price target_price stop_loss
        confidence : ℚ) (direction regime : String) (h : Reachable m) :
      Reachable (m.enter_position now direction entry_price target_price
        stop_loss confidence regime).2
  | check (m : PositionManager) (now current_price current_confidence
        min_hold_confidence : ℚ) (sigdir : String) (h : Reachable m) :
      Reachable (m.check_exit_conditions now current_price sigdir
        current_confidence min_hold_confidence).2
  | exit_op (m : PositionManager) (now exit_price : ℚ) (r : ExitReason)
      (h : Reachable m) :
      Reachable (m.exit_position now exit_price r).2

/-- The stop-loss condition of exit trigger 1 (`position_manager.py`
lines 214-218). -/
def stop_loss_cond (pos : Position) (cp : ℚ) : Prop :=
  (pos.direction = "BUY" ∧ cp ≤ pos.stop_loss) ∨
  (pos.direction = "SELL" ∧ cp ≥ pos.stop_loss)

/-- The target-hit condition of exit trigger 2 (`position_manager.py`
lines 220-224). -/
def target_hit_cond (pos : Position) (cp : ℚ) : Prop :=
  (pos.direction = "BUY" ∧ cp ≥ pos.target_price) ∨
  (pos.direction = "SELL" ∧ cp ≤ pos.target_price)

/-- With no open position, `check_exit_conditions` returns `(False, None)`
and leaves the manager untouched. -/
theorem check_exit_none (m : PositionManager) (now cp : ℚ) (sd : String)
    (cc mhc : ℚ) (h : m.current_position = none) :
    m.check_exit_conditions now cp sd cc mhc = ((false, none), m) := by
  unfold PositionManager.check_exit_conditions
  rw [h]

/-- Frame property of `check_exit_conditions` with an open position: the
updated manager differs from the old one only in the position object, which
is the extrema-updated position with its hold-signal streak either kept,
incremented by one, or reset to zero.  All identity fields (direction,
entry data, target, stop, confidence, regime) of the position and every
other manager field are untouched. -/
theorem check_exit_cases (m : PositionManager) (pos : Position)
    (now cp : ℚ) (sd : String) (cc mhc : ℚ)
    (h : m.current_position = some pos) :
    (m.check_exit_conditions now cp sd cc mhc).2 =
      { m with current_position := some (pos.update_price_extremes cp now) } ∨
    (m.check_exit_conditions now cp sd cc mhc).2 =
      { m with current_position := some { pos.update_price_extremes cp now with hold_signals_count := (pos.update_price_extremes cp now).hold_signals_count + 1 } } ∨
    (m.check_exit_conditions now cp sd cc mhc).2 =
      { m with current_position := some { pos.update_price_extremes cp now with hold_signals_count := 0 } } := by
  simp only [PositionManager.check_exit_conditions, h]
  cases htr : exit_trigger_1to5 m (pos.update_price_extremes cp now) cp sd
      cc mhc with
  | some r => simp [htr]
  | none =>
      simp only [htr]
      split_ifs <;> simp

/-- The state-machine invariant: in every reachable manager the current
position is present exactly when the state is `HOLDING`. -/
theorem reachable_inv (m : PositionManager) (h : Reachable m) :
    m.current_position.isSome = true ↔ m.state = PositionState.HOLDING := by
  induction h with
  | mk_init mh cd hs en act dist =>
      simp [PositionManager.mk_init]
  | enter m now ep tp sl conf dir regime h ih =>
      unfold PositionManager.enter_position
      split
      · exact ih
      · simp
  | check m now cp cc mhc sd h ih =>
      cases hp : m.current_position with
      | none =>
          rw [check_exit_none m now cp sd cc mhc hp]
          exact ih
      | some pos =>
          have hstate : m.state = PositionState.HOLDING :=
            ih.mp (by simp [hp])
          rcases check_exit_cases m pos now cp sd cc mhc hp with h2 | h2 | h2 <;>
            rw [h2] <;> simp [hstate]
  | exit_op m now ep r h ih =>
      unfold PositionManager.exit_position
      cases hp : m.current_position with
      | none => exact ih
      | some pos => simp

/-! ## Claims about the PositionManager -/

/-- C1: for every sequence of PositionManager operations starting from a
freshly constructed manager (`can_enter_position` and
`get_performance_stats` are pure and cannot change the manager), the
invariant holds after each operation: `current_position` is non-null iff
`state == HOLDING`. -/
theorem claim_C1_position_iff_holding (m : PositionManager)
    (h : Reachable m) :
    m.current_position.isSome = true ↔ m.state = PositionState.HOLDING :=
  reachable_inv m h

/-- Witness for C1 at a concrete reachable manager (a fresh default
manager that has entered a LONG position). -/
theorem claim_C1_witness :
    ((PositionManager.mk_init 240 3 3 true 1 (1/2)).enter_position 0 "BUY"
        100 105 98 (7/10) "ranging").2.current_position.isSome = true ↔
      ((PositionManager.mk_init 240 3 3 true 1 (1/2)).enter_position 0 "BUY"
        100 105 98 (7/10) "ranging").2.state = PositionState.HOLDING :=
  claim_C1_position_iff_holding _
    (Reachable.enter _ 0 100 105 98 (7/10) "BUY" "ranging"
      (Reachable.mk_init 240 3 3 true 1 (1/2)))

/-- When the stop-loss condition holds, the trigger chain answers
`STOP_LOSS`, whatever else is true. -/
theorem trigger_chain_stop (m : PositionManager) (pos : Position)
    (cp : ℚ) (sd : String) (cc mhc : ℚ) (h : stop_loss_cond pos cp) :
    exit_trigger_1to5 m pos cp sd cc mhc = some ExitReason.STOP_LOSS := by
  unfold exit_trigger_1to5
  rcases h with ⟨hd, hle⟩ | ⟨hd, hge⟩
  · rw [if_pos ⟨hd, hle⟩]
  · rw [if_neg (by simp [hd]), if_pos ⟨hd, hge⟩]

/-- C2: on any tick where the stop-loss condition and the target-hit
condition hold simultaneously, `check_exit_conditions` answers
`(True, STOP_LOSS)`: trigger 1 strictly precedes trigger 2. -/
theorem claim_C2_stop_precedes_target (m : PositionManager)
    (pos : Position) (now cp : ℚ) (sd : String) (cc mhc : ℚ)
    (hp : m.current_position = some pos)
    (h1 : stop_loss_cond pos cp) (h2 : target_hit_cond pos cp) :
    (m.check_exit_conditions now cp sd cc mhc).1 =
      (true, some ExitReason.STOP_LOSS) := by
  have h1' : stop_loss_cond (pos.update_price_extremes cp now) cp := h1
  simp only [PositionManager.check_exit_conditions, hp]
  rw [trigger_chain_stop m _ cp sd cc mhc h1']

/-- Witness for C2: a reachable LONG position entered at 100 with stop 100
and target 90, ticked at price 95 — both conditions hold, the answer is
`STOP_LOSS`. -/
theorem claim_C2_witness :
    ((((PositionManager.mk_init 240 3 3 true 1 (1/2)).enter_position 0 "BUY"
        100 90 100 (7/10) "ranging").2).check_exit_conditions 1 95 "BUY"
        (8/10) (1/2)).1 = (true, some ExitReason.STOP_LOSS) :=
  claim_C2_stop_precedes_target _ _ 1 95 "BUY" (8/10) (1/2) rfl
    (Or.inl ⟨rfl, by norm_num⟩) (Or.inl ⟨rfl, by norm_num⟩)

/-- C6: attempting `enter_position` while a position is already open (in
any reachable manager) returns `False` and leaves the manager — in
particular the open position — exactly as it was; attempting
`exit_position` while no position is open returns `None` and leaves the
manager (state, trade log, `last_exit_time`) exactly as it was.  Neither
call raises; failure is an explicit return value. -/
theorem claim_C6_invalid_transitions (m : PositionManager) (now : ℚ) :
    (∀ pos, Reachable m → m.current_position = some pos →
      ∀ direction entry_price target_price stop_loss confidence regime,
        m.enter_position now direction entry_price target_price stop_loss
          confidence regime = (false, m)) ∧
    (m.current_position = none →
      ∀ exit_price r, m.exit_position now exit_price r = (none, m)) := by
  constructor
  · intro pos hr hp direction ep tp sl conf regime
    have hstate : m.state = PositionState.HOLDING :=
      (reachable_inv m hr).mp (by simp [hp])
    unfold PositionManager.enter_position PositionManager.can_enter_position
    simp [hstate]
  · intro hp ep r
    unfold PositionManager.exit_position
    rw [hp]

/-- Witness for C6: entering on a manager that already holds a position
fails and changes nothing; exiting on a fresh (flat) manager returns
`None` and changes nothing. -/
theorem claim_C6_witness :
    (((PositionManager.mk_init 240 3 3 true 1 (1/2)).enter_position 0 "BUY"
        100 105 98 (7/10) "ranging").2.enter_position 1 "SELL" 50 40 60
        (1/2) "ranging" =
      (false, ((PositionManager.mk_init 240 3 3 true 1 (1/2)).enter_position
        0 "BUY" 100 105 98 (7/10) "ranging").2)) ∧
    ((PositionManager.mk_init 240 3 3 true 1 (1/2)).exit_position 0 50
        ExitReason.MANUAL =
      (none, PositionManager.mk_init 240 3 3 true 1 (1/2))) :=
  ⟨(claim_C6_invalid_transitions _ 1).1 _
      (Reachable.enter _ 0 100 105 98 (7/10) "BUY" "ranging"
        (Reachable.mk_init 240 3 3 true 1 (1/2))) rfl "SELL" 50 40 60
      (1/2) "ranging",
    (claim_C6_invalid_transitions _ 0).2 rfl 50 ExitReason.MANUAL⟩

/-- C10: `check_exit_conditions` never changes the externally visible
trading state.  With no open position it returns `(False, None)` and
mutates nothing at all.  With an open position — even when it answers
`(True, reason)` — the manager keeps its state, trade log,
`last_exit_time` and every configuration field (expressed by the
`{ m with current_position := ... }` form), the position stays present,
and the position keeps its direction, entry data, target, stop,
confidence and regime: only the running extrema, `last_update` and the
hold-signal streak may change.  Actually closing the position requires a
separate `exit_position` call. -/
theorem claim_C10_check_is_read_only (m : PositionManager) (now cp : ℚ)
    (sd : String) (cc mhc : ℚ) :
    (m.current_position = none →
      m.check_exit_conditions now cp sd cc mhc = ((false, none), m)) ∧
    (∀ pos, m.current_position = some pos →
      ∃ pos',
        (m.check_exit_conditions now cp sd cc mhc).2 =
          { m with current_position := some pos' } ∧
        pos'.direction = pos.direction ∧
        pos'.entry_price = pos.entry_price ∧
        pos'.entry_time = pos.entry_time ∧
        pos'.target_price = pos.target_price ∧
        pos'.stop_loss = pos.stop_loss ∧
        pos'.entry_confidence = pos.entry_confidence ∧
        pos'.regime = pos.regime) := by
  constructor
  · exact check_exit_none m now cp sd cc mhc
  · intro pos hp
    rcases check_exit_cases m pos now cp sd cc mhc hp with h2 | h2 | h2 <;>
      exact ⟨_, h2, rfl, rfl, rfl, rfl, rfl, rfl, rfl⟩

/-- Witness for C10 at a concrete manager holding a LONG position, on a
tick that triggers an exit answer. -/
theorem claim_C10_witness :
    ∃ pos',
      ((((PositionManager.mk_init 240 3 3 true 1 (1/2)).enter_position 0
          "BUY" 100 105 98 (7/10) "ranging").2).check_exit_conditions 1 95
          "BUY" (8/10) (1/2)).2 =
        { (((PositionManager.mk_init 240 3 3 true 1 (1/2)).enter_position 0
            "BUY" 100 105 98 (7/10) "ranging").2) with
            current_position := some pos' } ∧
      pos'.direction = "BUY" ∧
      pos'.entry_price = 100 ∧
      pos'.entry_time = 0 ∧
      pos'.target_price = 105 ∧
      pos'.stop_loss = 98 ∧
      pos'.entry_confidence = 7/10 ∧
      pos'.regime = "ranging" :=
  (claim_C10_check_is_read_only _ 1 95 "BUY" (8/10) (1/2)).2
    ⟨"BUY", 100, 0, 105, 98, 7/10, "ranging", 100, 100, 0, 0⟩ rfl

/-- C8: while a position is held and no trigger of priority 1-5 fires,
a `HOLD`-direction tick increments the hold-signal streak, and the call
answers `(True, TREND_WEAKENED)` exactly when the incremented streak has
reached the configured threshold; a tick whose direction equals the
position's direction resets the streak to 0; a tick with any other
non-`HOLD` direction leaves the streak unchanged — so only a
same-direction tick resets it. -/
theorem claim_C8_hold_streak (m : PositionManager) (pos : Position)
    (now cp : ℚ) (sd : String) (cc mhc : ℚ)
    (hp : m.current_position = some pos)
    (hno : exit_trigger_1to5 m (pos.update_price_extremes cp now) cp sd cc
      mhc = none) :
    (sd = "HOLD" →
      ((m.check_exit_conditions now cp sd cc mhc).2.current_position.map
          Position.hold_signals_count = some (pos.hold_signals_count + 1)) ∧
      ((m.check_exit_conditions now cp sd cc mhc).1 =
          (true, some ExitReason.TREND_WEAKENED) ↔
        pos.hold_signals_count + 1 ≥ m.hold_signals_to_exit)) ∧
    (sd ≠ "HOLD" → sd = pos.direction →
      (m.check_exit_conditions now cp sd cc mhc).2.current_position.map
        Position.hold_signals_count = some 0) ∧
    (sd ≠ "HOLD" → sd ≠ pos.direction →
      (m.check_exit_conditions now cp sd cc mhc).2.current_position.map
        Position.hold_signals_count = some pos.hold_signals_count) := by
  refine ⟨?_, ?_, ?_⟩
  · intro hsd
    subst hsd
    simp only [PositionManager.check_exit_conditions, hp, hno]
    rw [if_true]
    constructor
    · split_ifs <;> simp [Position.update_price_extremes]
    · split_ifs with h1 h2 <;>
        simp_all [Position.update_price_extremes]
  · intro hsd hdir
    subst hdir
    simp only [PositionManager.check_exit_conditions, hp, hno]
    rw [if_neg hsd,
      if_pos (show pos.direction =
        (pos.update_price_extremes cp now).direction from rfl)]
    split_ifs <;> simp
  · intro hsd hdir
    simp only [PositionManager.check_exit_conditions, hp, hno]
    rw [if_neg hsd,
      if_neg (show ¬sd =
        (pos.update_price_extremes cp now).direction from hdir)]
    split_ifs <;> simp [Position.update_price_extremes]

/-- Witness for C8: a held LONG with streak 2 and threshold 3, on a quiet
neutral tick, increments to 3 and answers `TREND_WEAKENED`. -/
theorem claim_C8_witness :
    (((⟨PositionState.HOLDING,
        some ⟨"BUY", 100, 0, 105, 98, 7/10, "ranging", 100, 100, 2, 0⟩,
        none, [], 240, 3, 3, true, 1, 1/2⟩ :
        PositionManager).check_exit_conditions 1 100 "HOLD" (8/10)
        (1/2)).2.current_position.map Position.hold_signals_count =
      some 3) ∧
    (((⟨PositionState.HOLDING,
        some ⟨"BUY", 100, 0, 105, 98, 7/10, "ranging", 100, 100, 2, 0⟩,
        none, [], 240, 3, 3, true, 1, 1/2⟩ :
        PositionManager).check_exit_conditions 1 100 "HOLD" (8/10)
        (1/2)).1 = (true, some ExitReason.TREND_WEAKENED) ↔
      (2 + 1 : ℤ) ≥ 3) := by
  have h := claim_C8_hold_streak
    (⟨PositionState.HOLDING,
      some ⟨"BUY", 100, 0, 105, 98, 7/10, "ranging", 100, 100, 2, 0⟩,
      none, [], 240, 3, 3, true, 1, 1/2⟩ : PositionManager)
    ⟨"BUY", 100, 0, 105, 98, 7/10, "ranging", 100, 100, 2, 0⟩ 1 100 "HOLD"
    (8/10) (1/2) rfl
    (by
      norm_num [exit_trigger_1to5, Position.update_price_extremes,
        Position.get_unrealized_pnl_pct, Position.get_unrealized_pnl]
      simp)
  exact h.1 rfl

/-- When trailing is enabled and armed, the held direction is `BUY`, the
price has retreated to or past the trailing level, and the stop-loss
condition does not hold, the trigger chain answers `TARGET_HIT` (via the
profit-target step or the trailing step). -/
theorem trigger_chain_trailing_buy (m : PositionManager) (pos : Position)
    (cp : ℚ) (sd : String) (cc mhc : ℚ)
    (hen : m.trailing_stop_enabled = true)
    (hact : pos.get_unrealized_pnl_pct cp > m.trailing_stop_activation_pct)
    (hdir : pos.direction = "BUY")
    (htrail : cp ≤
      pos.highest_price * (1 - m.trailing_stop_distance_pct / 100))
    (hstop : ¬stop_loss_cond pos cp) :
    exit_trigger_1to5 m pos cp sd cc mhc = some ExitReason.TARGET_HIT := by
  unfold exit_trigger_1to5
  rw [if_neg (fun hc => hstop (Or.inl hc)), if_neg (by simp [hdir])]
  by_cases ht : pos.target_price ≤ cp
  · rw [if_pos ⟨hdir, ht⟩]
  · rw [if_neg (fun hc => ht hc.2), if_neg (by simp [hdir]),
      if_pos ⟨hen, hact, hdir, htrail⟩]

/-- The `SELL` counterpart of `trigger_chain_trailing_buy`. -/
theorem trigger_chain_trailing_sell (m : PositionManager) (pos : Position)
    (cp : ℚ) (sd : String) (cc mhc : ℚ)
    (hen : m.trailing_stop_enabled = true)
    (hact : pos.get_unrealized_pnl_pct cp > m.trailing_stop_activation_pct)
    (hdir : pos.direction = "SELL")
    (htrail : cp ≥
      pos.lowest_price * (1 + m.trailing_stop_distance_pct / 100))
    (hstop : ¬stop_loss_cond pos cp) :
    exit_trigger_1to5 m pos cp sd cc mhc = some ExitReason.TARGET_HIT := by
  unfold exit_trigger_1to5
  rw [if_neg (by simp [hdir]), if_neg (fun hc => hstop (Or.inr hc)),
    if_neg (by simp [hdir])]
  by_cases ht : cp ≤ pos.target_price
  · rw [if_pos ⟨hdir, ht⟩]
  · rw [if_neg (fun hc => ht hc.2), if_neg (by simp [hdir]),
      if_pos ⟨hen, hact, by simp [hdir], htrail⟩]

/-- C9 (amended): for every held LONG (resp. SHORT) position, when the
trailing stop is enabled and the unrealized P/L percent strictly exceeds
the activation threshold, the trailing level is
`highest_price * (1 - distance/100)` (resp.
`lowest_price * (1 + distance/100)`, extrema taken after the tick's
update), and if the current price has retreated to or past that level —
and the higher-priority stop-loss condition does not simultaneously
hold — then `check_exit_conditions` answers `(True, TARGET_HIT)`. -/
theorem claim_C9_trailing_stop (m : PositionManager) (pos : Position)
    (now cp : ℚ) (sd : String) (cc mhc : ℚ)
    (hp : m.current_position = some pos)
    (hen : m.trailing_stop_enabled = true)
    (hact : (pos.update_price_extremes cp now).get_unrealized_pnl_pct cp >
      m.trailing_stop_activation_pct)
    (hstop : ¬stop_loss_cond pos cp) :
    (pos.direction = "BUY" →
      cp ≤ (pos.update_price_extremes cp now).highest_price *
          (1 - m.trailing_stop_distance_pct / 100) →
      (m.check_exit_conditions now cp sd cc mhc).1 =
        (true, some ExitReason.TARGET_HIT)) ∧
    (pos.direction = "SELL" →
      cp ≥ (pos.update_price_extremes cp now).lowest_price *
          (1 + m.trailing_stop_distance_pct / 100) →
      (m.check_exit_conditions now cp sd cc mhc).1 =
        (true, some ExitReason.TARGET_HIT)) := by
  constructor
  · intro hdir htr
    simp only [PositionManager.check_exit_conditions, hp]
    rw [trigger_chain_trailing_buy m _ cp sd cc mhc hen hact
      (show (pos.update_price_extremes cp now).direction = "BUY" from hdir)
      htr
      (show ¬stop_loss_cond (pos.update_price_extremes cp now) cp from
        hstop)]
  · intro hdir htr
    simp only [PositionManager.check_exit_conditions, hp]
    rw [trigger_chain_trailing_sell m _ cp sd cc mhc hen hact
      (show (pos.update_price_extremes cp now).direction = "SELL" from hdir)
      htr
      (show ¬stop_loss_cond (pos.update_price_extremes cp now) cp from
        hstop)]

/-- Counterexample to C9 as stated: a held LONG (entry 100, stop 101.6,
target 200, highest seen 103) ticked at 101.5 satisfies every trailing
condition the claim names — trailing enabled, unrealized P/L 1.5% > 1%
activation, price 101.5 ≤ 103·(1 − 0.5/100) = 102.485 — yet
`check_exit_conditions` answers `STOP_LOSS`, not `TARGET_HIT`, because the
stop-loss trigger has higher priority. -/
theorem claim_C9_counterexample :
    ((⟨PositionState.HOLDING,
        some ⟨"BUY", 100, 0, 200, 508/5, 7/10, "ranging", 103, 100, 0, 0⟩,
        none, [], 240, 3, 3, true, 1, 1/2⟩ :
        PositionManager).trailing_stop_enabled = true) ∧
    ((Position.update_price_extremes
        ⟨"BUY", 100, 0, 200, 508/5, 7/10, "ranging", 103, 100, 0, 0⟩
        (203/2) 2).get_unrealized_pnl_pct (203/2) > 1) ∧
    ((203/2 : ℚ) ≤ (Position.update_price_extremes
        ⟨"BUY", 100, 0, 200, 508/5, 7/10, "ranging", 103, 100, 0, 0⟩
        (203/2) 2).highest_price * (1 - (1/2) / 100)) ∧
    ((⟨PositionState.HOLDING,
        some ⟨"BUY", 100, 0, 200, 508/5, 7/10, "ranging", 103, 100, 0, 0⟩,
        none, [], 240, 3, 3, true, 1, 1/2⟩ :
        PositionManager).check_exit_conditions 2 (203/2) "BUY" (8/10)
        (1/2)).1 = (true, some ExitReason.STOP_LOSS) ∧
    ((true, some ExitReason.STOP_LOSS) ≠
      ((true : Bool), some ExitReason.TARGET_HIT)) := by
  refine ⟨rfl, ?_, ?_, ?_, by simp⟩
  · norm_num [Position.update_price_extremes,
      Position.get_unrealized_pnl_pct, Position.get_unrealized_pnl]
  · norm_num [Position.update_price_extremes, max_def]
  · simp only [PositionManager.check_exit_conditions]
    rw [trigger_chain_stop _ _ (203/2) "BUY" (8/10) (1/2)
      (Or.inl ⟨rfl, by norm_num [Position.update_price_extremes]⟩)]

/-- Witness for C9 (amended) on the spec's scenario: defaults (activation
1.0%, distance 0.5%), LONG entered at 100; a tick at 102 leaves the
position open with highest 102; the next tick at 101.4 ≤ 102·0.995 =
101.49 answers `(True, TARGET_HIT)`, and exiting at 101.4 realizes
pnl = 1.40. -/
theorem claim_C9_witness :
    ((((PositionManager.mk_init 240 3 3 true 1 (1/2)).enter_position 0
        "BUY" 100 105 98 (7/10) "ranging").2).check_exit_conditions 1 102
        "BUY" (8/10) (1/2)).2 =
      (⟨PositionState.HOLDING,
        some ⟨"BUY", 100, 0, 105, 98, 7/10, "ranging", 102, 100, 0, 1⟩,
        none, [], 240, 3, 3, true, 1, 1/2⟩ : PositionManager) ∧
    ((⟨PositionState.HOLDING,
        some ⟨"BUY", 100, 0, 105, 98, 7/10, "ranging", 102, 100, 0, 1⟩,
        none, [], 240, 3, 3, true, 1, 1/2⟩ :
        PositionManager).check_exit_conditions 2 (507/5) "BUY" (8/10)
        (1/2)).1 = (true, some ExitReason.TARGET_HIT) ∧
    ((⟨PositionState.HOLDING,
        some ⟨"BUY", 100, 0, 105, 98, 7/10, "ranging", 102, 100, 0, 1⟩,
        none, [], 240, 3, 3, true, 1, 1/2⟩ :
        PositionManager).exit_position 2 (507/5)
        ExitReason.TARGET_HIT).1.map Trade.pnl = some (7/5) := by
  refine ⟨?_, ?_, ?_⟩
  · simp only [PositionManager.enter_position,
      PositionManager.can_enter_position,
      PositionManager.check_exit_conditions, PositionManager.mk_init]
    norm_num [exit_trigger_1to5, Position.update_price_extremes,
      Position.get_unrealized_pnl_pct, Position.get_unrealized_pnl,
      max_def, min_def]
    simp
  · exact (claim_C9_trailing_stop _
      ⟨"BUY", 100, 0, 105, 98, 7/10, "ranging", 102, 100, 0, 1⟩ 2 (507/5)
      "BUY" (8/10) (1/2) rfl rfl
      (by norm_num [Position.update_price_extremes,
        Position.get_unrealized_pnl_pct, Position.get_unrealized_pnl])
      (by
        intro hc
        rcases hc with ⟨-, hle⟩ | ⟨hd, -⟩
        · norm_num at hle
        · simp at hd)).1 rfl
      (by norm_num [Position.update_price_extremes, max_def])
  · norm_num [PositionManager.exit_position]

/-- The pnl sum of a nonempty list of strictly losing trades is strictly
negative (so the source's `sum != 0` guard is redundant given
`losing_trades` nonempty). -/
theorem losing_sum_neg (l : List Trade) (hall : ∀ t ∈ l, t.pnl < 0)
    (hne : l ≠ []) : (l.map Trade.pnl).sum < 0 := by
  induction l with
  | nil => simp at hne
  | cons a as ih =>
      simp only [List.map_cons, List.sum_cons]
      rcases eq_or_ne as [] with h | h
      · subst h
        simpa using hall a (by simp)
      · have hs := ih (fun t ht => hall t (by simp [ht])) h
        have ha := hall a (by simp)
        linarith

set_option maxRecDepth 4000 in
/-- C7 (amended): `get_performance_stats` is a pure aggregation of the
trade log (the log is only read; the result contains no reference to it).
On an empty log it returns the distinct zero-trade indicator; otherwise
`win_rate = round(wins/total, 3)`, `total_pnl = round(Σ pnl, 2)`, the
profit factor is infinite exactly when there are no losing trades (in
particular also when there are no winning trades), and a finite profit
factor equals `round((Σ winning pnl)/|Σ losing pnl|, 2)`.  For the log of
pnl values `[+5, -2, +3, -1]` this yields `win_rate = 0.5`,
`total_pnl = 5` and `profit_factor = 2.67 = round(8/3, 2)`. -/
theorem claim_C7_perf_stats :
    get_performance_stats [] = none ∧
    (∀ history : List Trade, history ≠ [] →
      ∃ s, get_performance_stats history = some s ∧
        s.win_rate =
          pyround (((history.filter fun t => t.pnl > 0).length : ℚ) /
            history.length) 3 ∧
        s.total_pnl = pyround (history.map Trade.pnl).sum 2 ∧
        (s.profit_factor = none ↔
          (history.filter fun t => t.pnl < 0) = []) ∧
        (∀ pf, s.profit_factor = some pf →
          pf = pyround
            (((history.filter fun t => t.pnl > 0).map Trade.pnl).sum /
              |((history.filter fun t => t.pnl < 0).map Trade.pnl).sum|)
            2)) ∧
    (∀ t1 t2 t3 t4 : Trade, t1.pnl = 5 → t2.pnl = -2 → t3.pnl = 3 →
      t4.pnl = -1 →
      ∃ s, get_performance_stats [t1, t2, t3, t4] = some s ∧
        s.win_rate = 1/2 ∧ s.total_pnl = 5 ∧
        s.profit_factor = some (267/100)) := by
  refine ⟨by simp [get_performance_stats], ?_, ?_⟩
  · intro history hne
    have hlen : (0 : ℚ) < history.length := by
      exact_mod_cast List.length_pos.mpr hne
    have hlosing : ∀ t ∈ history.filter fun t => t.pnl < 0, t.pnl < 0 := by
      intro t ht
      simpa using (List.mem_filter.mp ht).2
    have hwin : (0:ℚ) ≤
        ((history.filter fun t => t.pnl > 0).map Trade.pnl).sum := by
      apply List.sum_nonneg
      intro x hx
      obtain ⟨t, ht, rfl⟩ := List.mem_map.mp hx
      have := (List.mem_filter.mp ht).2
      simp at this
      linarith
    simp only [get_performance_stats, if_neg hne]
    refine ⟨_, rfl, ?_, rfl, ?_, ?_⟩
    · dsimp only
      rw [if_pos (List.length_pos.mpr hne)]
    · dsimp only
      constructor
      · intro hnone
        by_contra hlne
        have hsum := losing_sum_neg _ hlosing hlne
        rw [if_pos ⟨hlne, ne_of_lt hsum⟩] at hnone
        simp at hnone
      · intro hl
        rw [if_neg (by simp [hl])]
        simp
    · intro pf hpf
      dsimp only at hpf
      by_cases hlne : (history.filter fun t => t.pnl < 0) = []
      · rw [if_neg (by simp [hlne])] at hpf
        simp at hpf
      · have hsum := losing_sum_neg _ hlosing hlne
        rw [if_pos ⟨hlne, ne_of_lt hsum⟩] at hpf
        simp at hpf
        subst hpf
        congr 1
        rw [abs_div, abs_of_nonneg hwin]
  · intro t1 t2 t3 t4 h1 h2 h3 h4
    have hf : Int.fract ((800:ℚ)/3) = 2/3 := by
      rw [Int.fract]
      norm_num
    have hstats : get_performance_stats [t1, t2, t3, t4] =
        some ⟨4, 2, 2, 1/2, 4, -(3/2), some (267/100), 5, 5, -2⟩ := by
      norm_num [get_performance_stats, List.filter_cons, h1, h2, h3, h4,
        pyround, roundHalfEven, listMax, listMin, max_def, min_def,
        List.cons_ne_nil, abs_of_pos, hf]
    exact ⟨_, hstats, rfl, rfl, rfl⟩

/-- Witness for C7 at a concrete four-trade log with pnl values
[+5, -2, +3, -1]. -/
theorem claim_C7_witness :
    ∃ s, get_performance_stats
        [⟨0, 1, "BUY", 100, 105, 105, 98, 5, 5, ExitReason.TARGET_HIT, 1,
          5, 0⟩,
         ⟨0, 1, "BUY", 100, 98, 105, 98, -2, -2, ExitReason.STOP_LOSS, 1,
          0, -2⟩,
         ⟨0, 1, "BUY", 100, 103, 105, 98, 3, 3, ExitReason.TARGET_HIT, 1,
          3, 0⟩,
         ⟨0, 1, "BUY", 100, 99, 105, 98, -1, -1, ExitReason.STOP_LOSS, 1,
          0, -1⟩] = some s ∧
      s.win_rate = 1/2 ∧ s.total_pnl = 5 ∧
      s.profit_factor = some (267/100) :=
  claim_C7_perf_stats.2.2 _ _ _ _ rfl rfl rfl rfl

set_option maxRecDepth 4000 in
/-- Counterexample to C7 as stated: on the log of pnl values
[+5, -2, +3, -1] the returned profit factor is the rounded value
2.67 = 267/100, which differs from the claimed 8/3; and on a log whose
single trade has pnl exactly 0 the profit factor is the infinite
indicator although there are no winning trades, refuting "infinite
exactly when there are wins and zero losing pnl". -/
theorem claim_C7_counterexample :
    (∃ s, get_performance_stats
        [⟨0, 1, "BUY", 100, 105, 105, 98, 5, 5, ExitReason.TARGET_HIT, 1,
          5, 0⟩,
         ⟨0, 1, "BUY", 100, 98, 105, 98, -2, -2, ExitReason.STOP_LOSS, 1,
          0, -2⟩,
         ⟨0, 1, "BUY", 100, 103, 105, 98, 3, 3, ExitReason.TARGET_HIT, 1,
          3, 0⟩,
         ⟨0, 1, "BUY", 100, 99, 105, 98, -1, -1, ExitReason.STOP_LOSS, 1,
          0, -1⟩] = some s ∧
      s.profit_factor = some (267/100)) ∧
    (267/100 : ℚ) ≠ 8/3 ∧
    (∃ s, get_performance_stats
        [⟨0, 1, "BUY", 100, 100, 105, 98, 0, 0, ExitReason.MANUAL, 1, 0,
          0⟩] = some s ∧
      s.profit_factor = none ∧ s.winning_trades = 0) := by
  refine ⟨?_, by norm_num, ?_⟩
  · have hf : Int.fract ((800:ℚ)/3) = 2/3 := by
      rw [Int.fract]
      norm_num
    have hstats : get_performance_stats
        [⟨0, 1, "BUY", 100, 105, 105, 98, 5, 5, ExitReason.TARGET_HIT, 1,
          5, 0⟩,
         ⟨0, 1, "BUY", 100, 98, 105, 98, -2, -2, ExitReason.STOP_LOSS, 1,
          0, -2⟩,
         ⟨0, 1, "BUY", 100, 103, 105, 98, 3, 3, ExitReason.TARGET_HIT, 1,
          3, 0⟩,
         ⟨0, 1, "BUY", 100, 99, 105, 98, -1, -1, ExitReason.STOP_LOSS, 1,
          0, -1⟩] =
        some ⟨4, 2, 2, 1/2, 4, -(3/2), some (267/100), 5, 5, -2⟩ := by
      norm_num [get_performance_stats, List.filter_cons, pyround,
        roundHalfEven, listMax, listMin, max_def, min_def,
        List.cons_ne_nil, abs_of_pos, hf]
    exact ⟨_, hstats, rfl⟩
  · have hstats : get_performance_stats
        [⟨0, 1, "BUY", 100, 100, 105, 98, 0, 0, ExitReason.MANUAL, 1, 0,
          0⟩] = some ⟨1, 0, 0, 0, 0, 0, none, 0, 0, 0⟩ := by
      norm_num [get_performance_stats, List.filter_cons, pyround,
        roundHalfEven, listMax, listMin, List.cons_ne_nil]
    exact ⟨_, hstats, rfl, rfl⟩

/-! ## Claims about the signal composer -/

/-- C3: evaluating the factor-combination step of the source shows that a
slow-timeframe score of +1 is stored under the separate weighted key with
value `int(1 * 1.5) = 1` and a score of -1 with value `int(-1 * 1.5) = -1`:
Python's `int()` truncation toward zero makes the intended 1.5 weighting a
no-op on every score in {-1, 0, +1}, so the weighted entry always equals
the raw value instead of 1.5 times it. -/
theorem claim_C3_weighting_truncated :
    combine_factors [] [("macd_15m", 1)] = [("macd_15m_weighted", 1)] ∧
    combine_factors [] [("macd_15m", -1)] = [("macd_15m_weighted", -1)] ∧
    combine_factors [("ema_cross_1m", 1)]
        [("ema_cross_15m", 1), ("macd_15m", -1)] =
      [("ema_cross_1m", 1), ("ema_cross_15m_weighted", 1),
        ("macd_15m_weighted", -1)] := by
  have ha : "macd_15m" ++ "_weighted" = "macd_15m_weighted" := rfl
  have hb : "ema_cross_15m" ++ "_weighted" = "ema_cross_15m_weighted" := rfl
  refine ⟨?_, ?_, ?_⟩
  all_goals
    norm_num [combine_factors, FactorDict.assign, pytrunc, List.lookup,
      Int.ceil_neg, ha, hb]
  all_goals rfl

/-- `direction_of` answers `HOLD` only for average scores in
[-0.3, 0.3], where the strength band is at most `WEAK` (value 2). -/
theorem direction_hold_strength_le (a : ℚ) (h : direction_of a = "HOLD") :
    (strength_of |a|).value ≤ 2 := by
  unfold direction_of at h
  split_ifs at h with h1 h2
  · simp at h
  · simp at h
  · push_neg at h1 h2
    have habs : |a| ≤ 3/10 := abs_le.mpr ⟨by linarith, h1⟩
    unfold strength_of
    split_ifs with s1 s2 s3 s4 <;> simp [SignalStrength.value] <;> linarith

/-- A signal that passes `_validate_signal` meets the strength floor. -/
theorem validate_strength_floor (cfg : StrategyConfig) (s : TradingSignal)
    (h : validate_signal cfg s = true) :
    ¬(s.strength.value < cfg.min_signal_strength) := by
  unfold validate_signal at h
  split_ifs at h <;> simp_all

/-- C4 (amended): whenever the final validation gate fails, the returned
signal is demoted to direction `HOLD` with strength `NONE`; consequently,
under any configuration whose strength floor exceeds 2 — in particular the
default `min_signal_strength = 3` — every returned `HOLD`-direction signal
has strength `NONE`, because an un-demoted `HOLD` direction forces
|avg| ≤ 0.3 and hence a strength band of at most `WEAK` (value 2), which
such a gate rejects.  Under permissive configured floors, however, a
validated `HOLD` signal keeps its raw strength band (see the
counterexample). -/
theorem claim_C4_hold_strength (cfg : StrategyConfig)
    (hcfg : 2 < cfg.min_signal_strength)
    (f1 f15 : FactorDict) (price atr conf : ℚ) (regime : MarketRegime)
    (hdir : (analyze_core cfg f1 f15 price atr conf regime).direction =
      "HOLD") :
    (analyze_core cfg f1 f15 price atr conf regime).strength =
      SignalStrength.NONE := by
  unfold analyze_core at hdir ⊢
  by_cases hv : validate_signal cfg
      (compose_signal cfg f1 f15 price atr conf regime) = false
  · rw [if_pos hv]
  · rw [if_neg hv] at hdir ⊢
    exfalso
    have hd2 : direction_of (avg_score (combine_factors f1 f15)) =
        "HOLD" := hdir
    have hle := direction_hold_strength_le _ hd2
    have hval := validate_strength_floor cfg _
      (by simpa using hv)
    have hstr : (compose_signal cfg f1 f15 price atr conf regime).strength =
        strength_of |avg_score (combine_factors f1 f15)| := rfl
    rw [hstr] at hval
    omega

/-- Counterexample to C4 as stated: under permissive configured floors
(`min_confidence = 0`, `min_signal_strength = 0`, `risk_reward_min = 0`)
an eight-factor combination averaging 0.25 composes a signal with
direction `HOLD` that passes the validation gate and keeps strength
`WEAK` — not `NONE`.  So "if direction is HOLD then strength is NONE"
does not hold regardless of the configured floors. -/
theorem claim_C4_counterexample :
    (analyze_core ⟨0, 0, 0⟩
        [("ema_cross_1m", 1), ("macd_1m", 1), ("rsi_1m", 1),
         ("vwap_1m", -1), ("cmf_1m", -1)]
        [("ema_cross_15m", 1), ("macd_15m", 1), ("vwap_15m", -1)]
        100 1 (1/2) MarketRegime.RANGING).direction = "HOLD" ∧
    (analyze_core ⟨0, 0, 0⟩
        [("ema_cross_1m", 1), ("macd_1m", 1), ("rsi_1m", 1),
         ("vwap_1m", -1), ("cmf_1m", -1)]
        [("ema_cross_15m", 1), ("macd_15m", 1), ("vwap_15m", -1)]
        100 1 (1/2) MarketRegime.RANGING).strength =
      SignalStrength.WEAK ∧
    SignalStrength.WEAK ≠ SignalStrength.NONE := by
  have ha : "ema_cross_15m" ++ "_weighted" = "ema_cross_15m_weighted" := rfl
  have hb : "macd_15m" ++ "_weighted" = "macd_15m_weighted" := rfl
  have hc : "vwap_15m" ++ "_weighted" = "vwap_15m_weighted" := rfl
  have hcomb : combine_factors
      [("ema_cross_1m", 1), ("macd_1m", 1), ("rsi_1m", 1),
       ("vwap_1m", -1), ("cmf_1m", -1)]
      [("ema_cross_15m", 1), ("macd_15m", 1), ("vwap_15m", -1)] =
      [("ema_cross_1m", 1), ("macd_1m", 1), ("rsi_1m", 1),
       ("vwap_1m", -1), ("cmf_1m", -1), ("ema_cross_15m_weighted", 1),
       ("macd_15m_weighted", 1), ("vwap_15m_weighted", -1)] := by
    norm_num [combine_factors, FactorDict.assign, pytrunc, List.lookup,
      Int.ceil_neg, ha, hb, hc]
    try rfl
  have hdir : calculate_direction
      [("ema_cross_1m", 1), ("macd_1m", 1), ("rsi_1m", 1),
       ("vwap_1m", -1), ("cmf_1m", -1), ("ema_cross_15m_weighted", 1),
       ("macd_15m_weighted", 1), ("vwap_15m_weighted", -1)] =
      ("HOLD", SignalStrength.WEAK) := by
    norm_num [calculate_direction, avg_score, direction_of, strength_of,
      abs_of_pos]
  have hsig : analyze_core ⟨0, 0, 0⟩
      [("ema_cross_1m", 1), ("macd_1m", 1), ("rsi_1m", 1),
       ("vwap_1m", -1), ("cmf_1m", -1)]
      [("ema_cross_15m", 1), ("macd_15m", 1), ("vwap_15m", -1)]
      100 1 (1/2) MarketRegime.RANGING =
      ⟨"HOLD", SignalStrength.WEAK, 1/2, 100, 100, 100,
        MarketRegime.RANGING, 1,
        [("ema_cross_1m", 1), ("macd_1m", 1), ("rsi_1m", 1),
         ("vwap_1m", -1), ("cmf_1m", -1), ("ema_cross_15m_weighted", 1),
         ("macd_15m_weighted", 1), ("vwap_15m_weighted", -1)]⟩ := by
    simp only [analyze_core, compose_signal, hcomb, hdir]
    simp [calculate_targets, validate_signal, SignalStrength.value]
    norm_num [pyround, roundHalfEven]
  rw [hsig]
  exact ⟨rfl, rfl, by simp⟩

/-- Witness for C4 (amended) at the default configuration
(0.65, 3, 1.5): with no factors and neutral confidence 0.5 the gate fails,
the signal is demoted, and the `HOLD` signal indeed has strength `NONE`. -/
theorem claim_C4_witness :
    (analyze_core ⟨13/20, 3, 3/2⟩ [] [] 100 1 (1/2)
      MarketRegime.RANGING).strength = SignalStrength.NONE := by
  apply claim_C4_hold_strength ⟨13/20, 3, 3/2⟩ (by norm_num) [] [] 100 1
    (1/2) MarketRegime.RANGING
  unfold analyze_core
  rw [if_pos ?hv]
  case hv =>
    unfold validate_signal
    rw [if_pos (by norm_num [compose_signal])]

/-- Counterexample to C5: constructing a `PositionManager` with a negative
cooldown duration and a negative max-hold duration succeeds — nothing
fails fast at construction — and the resulting manager is a perfectly
observable runtime object: it starts `FLAT`, stores the invalid options
verbatim, and even accepts a position entry. -/
theorem claim_C5_counterexample :
    (PositionManager.mk_init (-10) (-1) 3 true 1 (1/2)).cooldown_period =
      -1 ∧
    (PositionManager.mk_init (-10) (-1) 3 true 1 (1/2)).max_hold_time =
      -10 ∧
    (PositionManager.mk_init (-10) (-1) 3 true 1 (1/2)).state =
      PositionState.FLAT ∧
    ((PositionManager.mk_init (-10) (-1) 3 true 1 (1/2)).enter_position 0
      "BUY" 100 105 98 (7/10) "ranging").1 = true := by
  refine ⟨?_, ?_, rfl, rfl⟩ <;> norm_num [PositionManager.mk_init]

/-- C5 (amended): `PositionManager.__init__` performs no validation of its
option values: every combination — negative cooldown and max-hold
durations included — is accepted and stored verbatim, and the constructed
manager (initially `FLAT`, positionless, with empty history) is observable
at runtime.  No `ConfigurationError` exists anywhere in the code. -/
theorem claim_C5_no_validation (mh cd hs : ℤ) (en : Bool)
    (act dist : ℚ) :
    (PositionManager.mk_init mh cd hs en act dist).max_hold_time = mh ∧
    (PositionManager.mk_init mh cd hs en act dist).cooldown_period = cd ∧
    (PositionManager.mk_init mh cd hs en act dist).hold_signals_to_exit =
      hs ∧
    (PositionManager.mk_init mh cd hs en act dist).trailing_stop_enabled =
      en ∧
    (PositionManager.mk_init mh cd hs en
      act dist).trailing_stop_activation_pct = act ∧
    (PositionManager.mk_init mh cd hs en
      act dist).trailing_stop_distance_pct = dist ∧
    (PositionManager.mk_init mh cd hs en act dist).state =
      PositionState.FLAT ∧
    (PositionManager.mk_init mh cd hs en act dist).current_position =
      none ∧
    (PositionManager.mk_init mh cd hs en act dist).last_exit_time = none ∧
    (PositionManager.mk_init mh cd hs en act dist).trade_history = [] :=
  ⟨rfl, rfl, rfl, rfl, rfl, rfl, rfl, rfl, rfl, rfl⟩
